import Mathlib

/-!
# Verification of the Museum Solo AI priority engine

Shallow embedding of `PriorityService` (urgency scorer and daily schedule
planner) together with the domain types it consumes.

Modelling conventions:
* JavaScript numbers are modelled as exact rationals (`ℚ`); the source
  performs only addition, multiplication by decimal weight constants,
  subtraction and division by a constant on small values.
* `Date` values (`new Date(dueDate).getTime()`, `new Date().getTime()`)
  are modelled as rational epoch-milliseconds; the ambient clock `now`
  is passed explicitly since the source reads wall-clock time.
* Optional fields (`due_date?`, `estimated_hours?`) become `Option ℚ`;
  the JavaScript falsiness of `0`, `undefined` and `""` at each use site
  is reproduced explicitly at that use site.
* `TaskCategory` gains an extra constructor `other` so the record-lookup
  default `categoryImpact[task.category] || 2` for a key outside the
  table can be expressed; the lookup itself is an `Option`-valued map.
* The `while` loop in `balanceWorkload` is written with explicit fuel
  equal to the list length: every iteration removes exactly one element
  from a list of that length, so the fuel is never exhausted before the
  loop condition turns false.
-/

namespace MuseumSolo

/-- Task categories; `other` stands for any string outside the six known
category values (the source type is a string union, and the scorer's
lookup table has an explicit default for unknown keys). -/
inductive TaskCategory where
  | exhibition
  | education
  | collection
  | publication
  | research
  | admin
  | other (name : String)
deriving DecidableEq, Repr

/-- Task statuses from the source union type. -/
inductive TaskStatus where
  | pending
  | in_progress
  | completed
  | paused
  | cancelled
deriving DecidableEq, Repr

/-- The energy level of a schedule slot. -/
inductive EnergyLevel where
  | high
  | medium
  | low
deriving DecidableEq, Repr

/-- A task record. Only the fields the priority service reads are kept:
`id` (identity), `category`, `status`, `due_date` (epoch ms of the parsed
date, `none` when absent) and `estimated_hours`. The remaining source
fields (`title`, `description`, `priority`, timestamps, relations) are
never read by `PriorityService` and are omitted. -/
structure Task where
  id : ℤ
  category : TaskCategory
  status : TaskStatus
  due_date : Option ℚ
  estimated_hours : Option ℚ
deriving DecidableEq, Repr

/-- The four urgency sub-scores. -/
structure UrgencyFactors where
  deadline : ℚ
  impact : ℚ
  dependency : ℚ
  complexity : ℚ
deriving DecidableEq, Repr

/-- Result record returned by `calculateUrgencyScore`. -/
structure PriorityCalculationResult where
  task : Task
  urgencyScore : ℚ
  factors : UrgencyFactors
  recommendation : String
deriving DecidableEq, Repr

/-- A time slot of the daily schedule. -/
structure ScheduleSlot where
  time : String
  tasks : List Task
  energy : EnergyLevel
deriving DecidableEq, Repr

/-- The daily schedule returned by `generateDailySchedule`. -/
structure DailySchedule where
  date : String
  morning : ScheduleSlot
  afternoon : ScheduleSlot
  evening : ScheduleSlot
  totalEstimatedHours : ℚ
  aiRecommendation : String
deriving DecidableEq, Repr

/-- JavaScript `x || d` for a possibly-undefined number `x`: `undefined`
and `0` are falsy and give the default. -/
def jsOrDefault (v : Option ℚ) (d : ℚ) : ℚ :=
  match v with
  | none => d
  | some x => if x = 0 then d else x

/-- Source `getDeadlineScore`: deadline score from the optional due date and the
current time (both epoch ms). An absent (or empty-string, hence unparsed)
due date is `none`. -/
def getDeadlineScore (now : ℚ) (dueDate : Option ℚ) : ℚ :=
  match dueDate with
  | none => 2
  | some due =>
    let daysUntilDue := (due - now) / (1000 * 60 * 60 * 24)
    if daysUntilDue < 0 then 10
    else if daysUntilDue ≤ 1 then 9
    else if daysUntilDue ≤ 3 then 8
    else if daysUntilDue ≤ 7 then 6
    else if daysUntilDue ≤ 14 then 4
    else if daysUntilDue ≤ 30 then 3
    else 2

/-- The `categoryImpact` record literal; `none` models absence of the key
(a category outside the table), read through `jsOrDefault` below exactly
as `categoryImpact[task.category] || 2` reads it. -/
def categoryImpact : TaskCategory → Option ℚ
  | .exhibition => some 5
  | .education => some 4
  | .collection => some 3
  | .publication => some 3
  | .research => some 2
  | .admin => some 2
  | .other _ => none

/-- Source `getImpactScore`: category base plus effort bonus, capped at 10.
`if (task.estimated_hours)` is false for an absent value and for `0`. -/
def getImpactScore (task : Task) : ℚ :=
  let base := jsOrDefault (categoryImpact task.category) 2
  let bonus : ℚ :=
    match task.estimated_hours with
    | none => 0
    | some h =>
      if h = 0 then 0
      else if h > 8 then 3
      else if h > 4 then 2
      else 1
  min (base + bonus) 10

/-- Source `getDependencyScore`: category-based heuristic. -/
def getDependencyScore (task : Task) : ℚ :=
  if task.category = .exhibition ∨ task.category = .collection then 5 else 2

/-- Source `getComplexityScore`: its guard `if (!estimatedHours) return 2` is true for an
absent value and for `0`. -/
def getComplexityScore (estimatedHours : Option ℚ) : ℚ :=
  match estimatedHours with
  | none => 2
  | some h =>
    if h = 0 then 2
    else if h > 16 then 8
    else if h > 8 then 6
    else if h > 4 then 4
    else if h > 2 then 3
    else 2

/-- Source `getUrgencyFactors`. -/
def getUrgencyFactors (now : ℚ) (task : Task) : UrgencyFactors :=
  { deadline := getDeadlineScore now task.due_date
    impact := getImpactScore task
    dependency := getDependencyScore task
    complexity := getComplexityScore task.estimated_hours }

/-- The weighted sum in `calculateUrgencyScore` (weights object inlined:
deadline 0.40, impact 0.30, dependency 0.20, complexity 0.10). -/
def urgencyFromFactors (factors : UrgencyFactors) : ℚ :=
  factors.deadline * 0.40 +
  factors.impact * 0.30 +
  factors.dependency * 0.20 +
  factors.complexity * 0.10

/-- Source `generateRecommendation`: collect reason tags from factor thresholds,
then band the composite score. `reasons.join(', ') || fallback` uses the
falsiness of the empty string. -/
def generateRecommendation (factors : UrgencyFactors) (score : ℚ) : String :=
  let reasons : List String :=
    (if factors.deadline ≥ 8 then ["마감 임박"] else []) ++
    (if factors.impact ≥ 7 then ["높은 영향도"] else []) ++
    (if factors.dependency ≥ 5 then ["다른 작업 블로킹"] else []) ++
    (if factors.complexity ≥ 6 then ["높은 복잡도"] else [])
  let joined := String.intercalate ", " reasons
  if score ≥ 8 then "🚨 긴급: " ++ joined
  else if score ≥ 6 then "⚠️ 중요: " ++ joined
  else if score ≥ 4 then "📌 보통: " ++ (if joined = "" then "일반 우선순위" else joined)
  else "📋 낮음: 여유있게 처리 가능"

/-- Source `calculateUrgencyScore`. -/
def calculateUrgencyScore (now : ℚ) (task : Task) : PriorityCalculationResult :=
  let factors := getUrgencyFactors now task
  let urgencyScore := urgencyFromFactors factors
  { task := task
    urgencyScore := urgencyScore
    factors := factors
    recommendation := generateRecommendation factors urgencyScore }

/-- The comparator order of `sort((a, b) => b.urgencyScore - a.urgencyScore)`:
`a` precedes `b` when `a`'s score is at least `b`'s (descending). -/
def scoreGE (a b : PriorityCalculationResult) : Prop :=
  b.urgencyScore ≤ a.urgencyScore

instance : DecidableRel scoreGE :=
  fun a b => inferInstanceAs (Decidable (b.urgencyScore ≤ a.urgencyScore))

instance : IsTotal PriorityCalculationResult scoreGE :=
  ⟨fun a b => le_total b.urgencyScore a.urgencyScore⟩

instance : IsTrans PriorityCalculationResult scoreGE :=
  ⟨fun _ _ _ hab hbc => le_trans hbc hab⟩

/-- The eligibility filter of `calculateTopPriorityTasks`. -/
def isEligible (t : Task) : Bool :=
  decide (t.status = .pending ∨ t.status = .in_progress)

/-- Source `calculateTopPriorityTasks`: filter to pending/in-progress, score,
sort descending by urgency score (the runtime sort is stable; insertion
sort with `scoreGE` is the corresponding stable descending sort), take 3. -/
def calculateTopPriorityTasks (now : ℚ) (tasks : List Task) : List PriorityCalculationResult :=
  let pendingTasks := tasks.filter isEligible
  let scoredTasks := pendingTasks.map (calculateUrgencyScore now)
  let sorted := List.insertionSort scoreGE scoredTasks
  sorted.take 3

/-- Source expression `(task.estimated_hours || 0)`. -/
def jsHours (t : Task) : ℚ := jsOrDefault t.estimated_hours 0

/-- Source local `isCreative` in `categorizeTasksByEnergy`. -/
def isCreative (t : Task) : Bool :=
  decide (t.category = .exhibition ∨ t.category = .research)

/-- Source local `isComplex` in `categorizeTasksByEnergy`: `(task.estimated_hours || 0) > 2`. -/
def isComplexTask (t : Task) : Bool :=
  decide (jsHours t > 2)

/-- The `tasks.forEach` distribution loop of `categorizeTasksByEnergy`:
first-match branching into (morning, afternoon, evening); `push` appends
in iteration order, which this front-to-back recursion preserves. -/
def distributeTasks : List Task → List Task × List Task × List Task
  | [] => ([], [], [])
  | t :: rest =>
    let d := distributeTasks rest
    if isCreative t && isComplexTask t then (t :: d.1, d.2.1, d.2.2)
    else if t.category = .education ∨ t.category = .publication then (d.1, t :: d.2.1, d.2.2)
    else (d.1, d.2.1, t :: d.2.2)

/-- Summed `estimated_hours` of a slot's task list
(`slot.tasks.reduce((sum, t) => sum + (t.estimated_hours || 0), 0)`). -/
def slotHours (tasks : List Task) : ℚ :=
  tasks.foldl (fun sum t => sum + jsHours t) 0

/-- One slot's `while` loop in `balanceWorkload`, with fuel. The source
keeps a running `totalHours` and subtracts the popped task's hours; that
running value always equals `slotHours` of the current list, so the loop
guard is recomputed here. Each iteration pops exactly one task. -/
def balanceSlotAux : Nat → List Task → List Task
  | 0, tasks => tasks
  | fuel + 1, tasks =>
    if 3 < slotHours tasks ∧ 1 < tasks.length then balanceSlotAux fuel tasks.dropLast
    else tasks

/-- Source `balanceWorkload` restricted to one slot: the loop runs at most
`tasks.length - 1` iterations, so `tasks.length` fuel always suffices. -/
def balanceSlot (tasks : List Task) : List Task :=
  balanceSlotAux tasks.length tasks

/-- Source `categorizeTasksByEnergy`: build the three fixed slots, distribute,
then balance each slot (the `userPreferences` parameter of the source is
never read and is omitted). -/
def categorizeTasksByEnergy (tasks : List Task) :
    ScheduleSlot × ScheduleSlot × ScheduleSlot :=
  let d := distributeTasks tasks
  ( { time := "09:00-12:00", tasks := balanceSlot d.1, energy := .high },
    { time := "13:00-17:00", tasks := balanceSlot d.2.1, energy := .medium },
    { time := "17:00-18:00", tasks := balanceSlot d.2.2, energy := .low } )

/-- Source `calculateTotalHours`. -/
def calculateTotalHours (morning afternoon evening : ScheduleSlot) : ℚ :=
  slotHours (morning.tasks ++ afternoon.tasks ++ evening.tasks)

/-- Source `generateScheduleRecommendation`. -/
def generateScheduleRecommendation
    (morning _afternoon evening : ScheduleSlot) (totalHours : ℚ) : String :=
  let recommendations : List String :=
    (if totalHours > 8 then
      ["⚠️ 오늘 업무량이 많습니다. 일부 작업을 내일로 연기하는 것을 고려하세요."]
     else if totalHours < 4 then
      ["✅ 여유로운 하루입니다. 미뤄뒀던 연구나 학습에 시간을 투자하세요."]
     else []) ++
    (if morning.tasks.length = 0 then
      ["💡 아침 시간에 창의적인 작업을 배치하면 생산성이 높아집니다."]
     else []) ++
    (if evening.tasks.length > 2 then
      ["📋 저녁에는 가벼운 작업 1-2개만 처리하고 휴식을 취하세요."]
     else [])
  if recommendations.length > 0 then String.intercalate "\n" recommendations
  else "👍 잘 균형잡힌 스케줄입니다. 집중해서 진행하세요!"

/-- Source `generateDailySchedule`: the argument `today` models
`new Date().toISOString().split('T')[0]` (ambient clock, passed in). -/
def generateDailySchedule (now : ℚ) (today : String) (tasks : List Task) : DailySchedule :=
  let priorityTasks := calculateTopPriorityTasks now tasks
  let topTasks := (priorityTasks.take 10).map (fun pt => pt.task)
  let slots := categorizeTasksByEnergy topTasks
  let totalHours := calculateTotalHours slots.1 slots.2.1 slots.2.2
  { date := today
    morning := slots.1
    afternoon := slots.2.1
    evening := slots.2.2
    totalEstimatedHours := totalHours
    aiRecommendation :=
      generateScheduleRecommendation slots.1 slots.2.1 slots.2.2 totalHours }

/-! ## Helper lemmas about workload balancing -/

theorem slotHours_nil : slotHours [] = 0 := rfl

/-- When the loop guard of `balanceWorkload` is false, the slot is either
within the 3-hour cap or reduced to a single task that alone exceeds it. -/
theorem balance_stuck (l : List Task) (h : ¬(3 < slotHours l ∧ 1 < l.length)) :
    slotHours l ≤ 3 ∨ (l.length = 1 ∧ 3 < slotHours l) := by
  by_cases hs : slotHours l ≤ 3
  · exact Or.inl hs
  · push_neg at hs
    have hlen : ¬ 1 < l.length := fun hl => h ⟨hs, hl⟩
    right
    refine ⟨?_, hs⟩
    match l with
    | [] => rw [slotHours_nil] at hs; norm_num at hs
    | [x] => rfl
    | x :: y :: rest => exact absurd (by simp) hlen

theorem balanceSlotAux_take (fuel : Nat) (l : List Task) :
    ∃ n, balanceSlotAux fuel l = l.take n := by
  induction fuel generalizing l with
  | zero => exact ⟨l.length, (List.take_length l).symm⟩
  | succ fuel ih =>
    by_cases hc : 3 < slotHours l ∧ 1 < l.length
    · obtain ⟨n, hn⟩ := ih l.dropLast
      refine ⟨min n (l.length - 1), ?_⟩
      simp only [balanceSlotAux]
      rw [if_pos hc, hn, List.dropLast_eq_take, List.take_take]
    · simp only [balanceSlotAux]
      rw [if_neg hc]
      exact ⟨l.length, (List.take_length l).symm⟩

theorem balanceSlotAux_cap (fuel : Nat) (l : List Task) (hfuel : l.length ≤ fuel + 1) :
    slotHours (balanceSlotAux fuel l) ≤ 3 ∨
      ((balanceSlotAux fuel l).length = 1 ∧ 3 < slotHours (balanceSlotAux fuel l)) := by
  induction fuel generalizing l with
  | zero =>
    have hstop : ¬(3 < slotHours l ∧ 1 < l.length) := by
      rintro ⟨-, h2⟩; omega
    simpa [balanceSlotAux] using balance_stuck l hstop
  | succ fuel ih =>
    by_cases hc : 3 < slotHours l ∧ 1 < l.length
    · have hlen : l.dropLast.length ≤ fuel + 1 := by
        rw [List.length_dropLast]; omega
      have hrec := ih l.dropLast hlen
      simp only [balanceSlotAux]
      rw [if_pos hc]
      exact hrec
    · simp only [balanceSlotAux]
      rw [if_neg hc]
      exact balance_stuck l hc

theorem balanceSlot_take (l : List Task) : ∃ n, balanceSlot l = l.take n :=
  balanceSlotAux_take l.length l

theorem balanceSlot_cap (l : List Task) :
    slotHours (balanceSlot l) ≤ 3 ∨
      ((balanceSlot l).length = 1 ∧ 3 < slotHours (balanceSlot l)) :=
  balanceSlotAux_cap l.length l (by omega)

/-! ## Claim theorems -/

/-- C2: for every task, the `urgencyScore` returned by
`calculateUrgencyScore` equals `0.40*deadline + 0.30*impact +
0.20*dependency + 0.10*complexity` over the four factors computed for
that task. -/
theorem urgency_weighted_sum_c2 (now : ℚ) (t : Task) :
    (calculateUrgencyScore now t).urgencyScore =
      0.40 * (calculateUrgencyScore now t).factors.deadline +
      0.30 * (calculateUrgencyScore now t).factors.impact +
      0.20 * (calculateUrgencyScore now t).factors.dependency +
      0.10 * (calculateUrgencyScore now t).factors.complexity := by
  simp only [calculateUrgencyScore, urgencyFromFactors]
  ring

/-- C8: the weighted urgency sum is monotonically non-decreasing in the
deadline factor when the other three factors are held fixed. -/
theorem urgency_monotone_deadline_c8 (f : UrgencyFactors) (d d' : ℚ) (h : d ≤ d') :
    urgencyFromFactors { f with deadline := d } ≤
      urgencyFromFactors { f with deadline := d' } := by
  simp only [urgencyFromFactors]
  linarith

/-- Witness for C8 at deadline factors 5 and 6. -/
theorem urgency_monotone_deadline_c8_witness :
    urgencyFromFactors { deadline := 5, impact := 2, dependency := 3, complexity := 4 } ≤
      urgencyFromFactors { deadline := 6, impact := 2, dependency := 3, complexity := 4 } :=
  urgency_monotone_deadline_c8
    { deadline := 0, impact := 2, dependency := 3, complexity := 4 } 5 6 (by norm_num)

/-- C3: the deadline sub-score is 2 with no due date, 10 when the
fractional days remaining are negative, and otherwise follows the
threshold ladder 9/8/6/4/3/2 with the first matching rule winning. -/
theorem deadline_score_c3 (now due d : ℚ)
    (hd : d = (due - now) / (1000 * 60 * 60 * 24)) :
    getDeadlineScore now none = 2 ∧
    (d < 0 → getDeadlineScore now (some due) = 10) ∧
    (0 ≤ d → d ≤ 1 → getDeadlineScore now (some due) = 9) ∧
    (1 < d → d ≤ 3 → getDeadlineScore now (some due) = 8) ∧
    (3 < d → d ≤ 7 → getDeadlineScore now (some due) = 6) ∧
    (7 < d → d ≤ 14 → getDeadlineScore now (some due) = 4) ∧
    (14 < d → d ≤ 30 → getDeadlineScore now (some due) = 3) ∧
    (30 < d → getDeadlineScore now (some due) = 2) := by
  subst hd
  refine ⟨rfl, ?_, ?_, ?_, ?_, ?_, ?_, ?_⟩ <;>
    · intros
      simp only [getDeadlineScore]
      split_ifs <;> first | rfl | linarith

/-- Witness for C3: a due date equal to the current instant scores 9. -/
theorem deadline_score_c3_witness : getDeadlineScore 0 (some 0) = 9 :=
  (deadline_score_c3 0 0 0 (by norm_num)).2.2.1 (by norm_num) (by norm_num)

/-- The category base table exactly as the spec words it (exhibition=5,
education=4, collection=3, publication=3, research=2, admin=2, default 2
for an unknown category); stated from the spec to compare with the
source's `categoryImpact` lookup plus its falsy default. -/
def impactBaseSpec : TaskCategory → ℚ
  | .exhibition => 5
  | .education => 4
  | .collection => 3
  | .publication => 3
  | .research => 2
  | .admin => 2
  | .other _ => 2

/-- The effort bonus exactly as the spec words it: +3 when hours exceed
8, +2 when they exceed 4, +1 for any other present hours, +0 when hours
are absent. -/
def effortBonusSpec : Option ℚ → ℚ
  | none => 0
  | some h => if h > 8 then 3 else if h > 4 then 2 else 1

/-- C4: the impact sub-score equals the category base plus the effort
bonus clamped to at most 10, and always lies in [2, 10]. The hypothesis
that present hours are positive is the spec's own data-model constraint
(`estimated_hours`: optional positive real); with zero hours the source's
falsy test would skip the +1 bonus. -/
theorem impact_score_c4 (t : Task)
    (hpos : ∀ x, t.estimated_hours = some x → 0 < x) :
    getImpactScore t =
      min (impactBaseSpec t.category + effortBonusSpec t.estimated_hours) 10 ∧
    2 ≤ getImpactScore t ∧ getImpactScore t ≤ 10 := by
  obtain ⟨tid, cat, st, dd, eh⟩ := t
  have heq : getImpactScore ⟨tid, cat, st, dd, eh⟩ =
      min (impactBaseSpec cat + effortBonusSpec eh) 10 := by
    cases eh with
    | none =>
      cases cat <;>
        norm_num [getImpactScore, effortBonusSpec, impactBaseSpec, jsOrDefault, categoryImpact]
    | some h =>
      have hp : h ≠ 0 := (hpos h rfl).ne'
      cases cat <;>
        norm_num [getImpactScore, effortBonusSpec, impactBaseSpec, jsOrDefault, categoryImpact, hp]
  have hbase2 : 2 ≤ impactBaseSpec cat := by
    cases cat <;> norm_num [impactBaseSpec]
  have hbonus0 : 0 ≤ effortBonusSpec eh := by
    cases eh with
    | none => norm_num [effortBonusSpec]
    | some h => simp only [effortBonusSpec]; split_ifs <;> norm_num
  refine ⟨heq, ?_, ?_⟩
  · rw [heq]
    exact le_min (by linarith) (by norm_num)
  · rw [heq]
    exact min_le_right _ _

/-- Task used to witness C4: education, five estimated hours. -/
def educationFiveHours : Task :=
  { id := 3, category := .education, status := .pending,
    due_date := none, estimated_hours := some 5 }

/-- Witness for C4 on a concrete education task with 5 hours. -/
theorem impact_score_c4_witness :
    getImpactScore educationFiveHours =
      min (impactBaseSpec educationFiveHours.category +
        effortBonusSpec educationFiveHours.estimated_hours) 10 ∧
    2 ≤ getImpactScore educationFiveHours ∧ getImpactScore educationFiveHours ≤ 10 :=
  impact_score_c4 educationFiveHours (fun x hx => by
    simp only [educationFiveHours, Option.some.injEq] at hx
    exact hx ▸ (by norm_num))

/-- C5: `calculateTopPriorityTasks` keeps exactly the eligible
(pending/in-progress) tasks, scored, in descending urgency order, and
truncated to three: its length is `min eligible 3` (so never more than 3,
and fewer than 3 exactly when fewer than 3 tasks are eligible), its
output is pairwise descending in `urgencyScore`, and every returned
record is one of the scored eligible tasks. -/
theorem top_priority_c5 (now : ℚ) (tasks : List Task) :
    (calculateTopPriorityTasks now tasks).length =
      min (tasks.filter isEligible).length 3 ∧
    (calculateTopPriorityTasks now tasks).length ≤ 3 ∧
    ((calculateTopPriorityTasks now tasks).length < 3 ↔
      (tasks.filter isEligible).length < 3) ∧
    (calculateTopPriorityTasks now tasks).Pairwise
      (fun a b => b.urgencyScore ≤ a.urgencyScore) ∧
    (∀ r ∈ calculateTopPriorityTasks now tasks,
      r ∈ (tasks.filter isEligible).map (calculateUrgencyScore now)) := by
  have hlen : (calculateTopPriorityTasks now tasks).length =
      min (tasks.filter isEligible).length 3 := by
    simp only [calculateTopPriorityTasks]
    rw [List.length_take, List.length_insertionSort, List.length_map, min_comm]
  refine ⟨hlen, by omega, by omega, ?_, ?_⟩
  · have hsorted : List.Sorted scoreGE
        (List.insertionSort scoreGE
          ((tasks.filter isEligible).map (calculateUrgencyScore now))) :=
      List.sorted_insertionSort scoreGE _
    exact hsorted.sublist (List.take_sublist 3 _)
  · intro r hr
    have hr' : r ∈ List.insertionSort scoreGE
        ((tasks.filter isEligible).map (calculateUrgencyScore now)) :=
      (List.take_sublist 3 _).subset hr
    exact (List.perm_insertionSort scoreGE _).subset hr'

/-- C6: in every schedule produced by `generateDailySchedule`, each
slot's summed hours are at most 3 unless the slot was trimmed down to a
single task that alone exceeds 3 hours, and each slot's final list is an
initial segment (tail removal only) of the list the distribution pass
assigned to that slot. -/
theorem schedule_slot_cap_c6 (now : ℚ) (today : String) (tasks : List Task) :
    (slotHours (generateDailySchedule now today tasks).morning.tasks ≤ 3 ∨
      ((generateDailySchedule now today tasks).morning.tasks.length = 1 ∧
        3 < slotHours (generateDailySchedule now today tasks).morning.tasks)) ∧
    (slotHours (generateDailySchedule now today tasks).afternoon.tasks ≤ 3 ∨
      ((generateDailySchedule now today tasks).afternoon.tasks.length = 1 ∧
        3 < slotHours (generateDailySchedule now today tasks).afternoon.tasks)) ∧
    (slotHours (generateDailySchedule now today tasks).evening.tasks ≤ 3 ∨
      ((generateDailySchedule now today tasks).evening.tasks.length = 1 ∧
        3 < slotHours (generateDailySchedule now today tasks).evening.tasks)) ∧
    (∃ n, (generateDailySchedule now today tasks).morning.tasks =
      (distributeTasks (((calculateTopPriorityTasks now tasks).take 10).map
        (fun pt => pt.task))).1.take n) ∧
    (∃ n, (generateDailySchedule now today tasks).afternoon.tasks =
      (distributeTasks (((calculateTopPriorityTasks now tasks).take 10).map
        (fun pt => pt.task))).2.1.take n) ∧
    (∃ n, (generateDailySchedule now today tasks).evening.tasks =
      (distributeTasks (((calculateTopPriorityTasks now tasks).take 10).map
        (fun pt => pt.task))).2.2.take n) :=
  ⟨balanceSlot_cap _, balanceSlot_cap _, balanceSlot_cap _,
   balanceSlot_take _, balanceSlot_take _, balanceSlot_take _⟩

/-- C9: the scorer is total over every task shape: it always returns a
result carrying the task, and a task whose category is outside the six
known values takes the lookup default of 2 and scores exactly like the
same task with the default-base category `admin`. -/
theorem scorer_total_c9 (now : ℚ) (t : Task) :
    (∃ r : PriorityCalculationResult,
      calculateUrgencyScore now t = r ∧ r.task = t) ∧
    (∀ s, t.category = TaskCategory.other s →
      jsOrDefault (categoryImpact t.category) 2 = 2 ∧
      (calculateUrgencyScore now t).factors =
        (calculateUrgencyScore now { t with category := TaskCategory.admin }).factors) := by
  constructor
  · exact ⟨calculateUrgencyScore now t, rfl, rfl⟩
  · intro s hs
    obtain ⟨tid, cat, st, dd, eh⟩ := t
    simp only at hs
    subst hs
    constructor
    · rfl
    · norm_num [calculateUrgencyScore, getUrgencyFactors, getImpactScore,
        getDependencyScore, jsOrDefault, categoryImpact]
      split_ifs <;> simp_all

/-- Task used to witness C9: category outside the known six. -/
def unknownCategoryTask : Task :=
  { id := 7, category := .other "finance", status := .pending,
    due_date := none, estimated_hours := none }

/-- Witness for C9 on a task with the unknown category "finance". -/
theorem scorer_total_c9_witness :
    jsOrDefault (categoryImpact unknownCategoryTask.category) 2 = 2 ∧
    (calculateUrgencyScore 0 unknownCategoryTask).factors =
      (calculateUrgencyScore 0
        { unknownCategoryTask with category := TaskCategory.admin }).factors :=
  (scorer_total_c9 0 unknownCategoryTask).2 "finance" rfl

/-- C10: a task with `estimated_hours` exactly 0 behaves as if the field
were absent: complexity sub-score 2 (the same as `none`), no effort
bonus in the impact sub-score, never classified as complex, and never
placed in the morning slot — neither by the distribution pass nor in any
schedule `generateDailySchedule` produces. -/
theorem zero_hours_c10 (t : Task) (h : t.estimated_hours = some 0) :
    getComplexityScore t.estimated_hours = 2 ∧
    getComplexityScore t.estimated_hours = getComplexityScore none ∧
    getImpactScore t = getImpactScore { t with estimated_hours := none } ∧
    isComplexTask t = false ∧
    (∀ l : List Task, t ∉ (distributeTasks l).1) ∧
    (∀ (now : ℚ) (today : String) (l : List Task),
      t ∉ (generateDailySchedule now today l).morning.tasks) := by
  have hnotmorning : ∀ l : List Task, t ∉ (distributeTasks l).1 := by
    intro l
    induction l with
    | nil => simp [distributeTasks]
    | cons x rest ih =>
      simp only [distributeTasks]
      split_ifs with h1 h2
      · intro hmem
        rcases List.mem_cons.mp hmem with rfl | hmem'
        · norm_num [isComplexTask, jsHours, jsOrDefault, h] at h1
        · exact ih hmem'
      · exact ih
      · exact ih
  refine ⟨by rw [h]; rfl, by rw [h]; rfl, ?_, ?_, hnotmorning, ?_⟩
  · obtain ⟨tid, cat, st, dd, eh⟩ := t
    simp only at h
    subst h
    simp [getImpactScore]
  · simp [isComplexTask, jsHours, jsOrDefault, h]
  · intro now today l
    obtain ⟨n, hn⟩ := balanceSlot_take
      (distributeTasks (((calculateTopPriorityTasks now l).take 10).map (fun pt => pt.task))).1
    have hmt : (generateDailySchedule now today l).morning.tasks =
        balanceSlot (distributeTasks (((calculateTopPriorityTasks now l).take 10).map
          (fun pt => pt.task))).1 := rfl
    rw [hmt, hn]
    intro hmem
    exact hnotmorning _ ((List.take_sublist n _).subset hmem)

/-- Task used to witness C10: pending admin task with zero hours. -/
def zeroHoursTask : Task :=
  { id := 9, category := .admin, status := .pending,
    due_date := none, estimated_hours := some 0 }

/-- Witness for C10 on a concrete zero-hour task. -/
theorem zero_hours_c10_witness :
    getComplexityScore zeroHoursTask.estimated_hours = 2 ∧
    getComplexityScore zeroHoursTask.estimated_hours = getComplexityScore none ∧
    getImpactScore zeroHoursTask =
      getImpactScore { zeroHoursTask with estimated_hours := none } ∧
    isComplexTask zeroHoursTask = false ∧
    (∀ l : List Task, zeroHoursTask ∉ (distributeTasks l).1) ∧
    (∀ (now : ℚ) (today : String) (l : List Task),
      zeroHoursTask ∉ (generateDailySchedule now today l).morning.tasks) :=
  zero_hours_c10 zeroHoursTask rfl

/-- The spec's first worked example: exhibition task due at the current
instant with 2 estimated hours. -/
def exhibitionToday : Task :=
  { id := 1, category := .exhibition, status := .pending,
    due_date := some 0, estimated_hours := some 2 }

/-- The spec's second worked example: admin task with no due date and no
estimated hours. -/
def adminBare : Task :=
  { id := 2, category := .admin, status := .pending,
    due_date := none, estimated_hours := none }

/-- C7 counterexample: on the exhibition example the complexity
sub-score is 2, not 3 (2 hours are not strictly greater than 2), so the
urgency score is 6.6, not the claimed 6.7. -/
theorem example_scores_c7_counterexample :
    (calculateUrgencyScore 0 exhibitionToday).factors.complexity = 2 ∧
    (calculateUrgencyScore 0 exhibitionToday).urgencyScore = 6.6 ∧
    (calculateUrgencyScore 0 exhibitionToday).urgencyScore ≠ 6.7 := by
  norm_num +decide [calculateUrgencyScore, getUrgencyFactors, getDeadlineScore,
    getImpactScore, getDependencyScore, getComplexityScore,
    urgencyFromFactors, jsOrDefault, categoryImpact, exhibitionToday]

/-- C7 amended: the exhibition example yields factors deadline=9,
impact=6, dependency=5, complexity=2 and urgency score 6.6; the admin
example yields all factors 2 and urgency score exactly 2.0. -/
theorem example_scores_c7_amended :
    (calculateUrgencyScore 0 exhibitionToday).factors =
      { deadline := 9, impact := 6, dependency := 5, complexity := 2 } ∧
    (calculateUrgencyScore 0 exhibitionToday).urgencyScore = 6.6 ∧
    (calculateUrgencyScore 0 adminBare).factors =
      { deadline := 2, impact := 2, dependency := 2, complexity := 2 } ∧
    (calculateUrgencyScore 0 adminBare).urgencyScore = 2 := by
  norm_num +decide [calculateUrgencyScore, getUrgencyFactors, getDeadlineScore,
    getImpactScore, getDependencyScore, getComplexityScore,
    urgencyFromFactors, jsOrDefault, categoryImpact, exhibitionToday,
    adminBare, UrgencyFactors.mk.injEq]

/-- An eligible admin task with no due date and no hours, used to build
the twelve-task input of C1. -/
def mkAdminTask (i : ℤ) : Task :=
  { id := i, category := .admin, status := .pending,
    due_date := none, estimated_hours := none }

/-- Twelve eligible tasks submitted to `generateDailySchedule`. -/
def twelveTasks : List Task :=
  [mkAdminTask 1, mkAdminTask 2, mkAdminTask 3, mkAdminTask 4,
   mkAdminTask 5, mkAdminTask 6, mkAdminTask 7, mkAdminTask 8,
   mkAdminTask 9, mkAdminTask 10, mkAdminTask 11, mkAdminTask 12]

/-- C1: evaluating `generateDailySchedule` on twelve eligible tasks
places only three tasks into the slots (all in the evening slot here),
not the claimed top ten: `calculateTopPriorityTasks` already truncates
to three before the planner's `slice(0, 10)`, so that slice never sees
more than three candidates. -/
theorem schedule_only_three_c1 :
    (generateDailySchedule 0 "2026-10-12" twelveTasks).morning.tasks.length = 0 ∧
    (generateDailySchedule 0 "2026-10-12" twelveTasks).afternoon.tasks.length = 0 ∧
    (generateDailySchedule 0 "2026-10-12" twelveTasks).evening.tasks.length = 3 := by
  norm_num +decide [generateDailySchedule, calculateTopPriorityTasks, twelveTasks,
    mkAdminTask, isEligible, calculateUrgencyScore, getUrgencyFactors,
    getDeadlineScore, getImpactScore, getDependencyScore, getComplexityScore,
    urgencyFromFactors, jsOrDefault, categoryImpact, scoreGE,
    distributeTasks, isCreative, isComplexTask, jsHours, balanceSlot,
    balanceSlotAux, slotHours, categorizeTasksByEnergy, calculateTotalHours]

end MuseumSolo
